import Mathlib

/-!
Verification of the filter-aggregate pipeline of `dashboard/dashboard.py`
(bike-rental dashboard).

Modelling conventions:
* Dates are day ordinals (`Nat`); the pandas timestamps of the script are
  totally ordered and only compared with `≤`/`≥`, so any order-embedding
  into `Nat` is faithful (in the scenario data, `1` stands for 2011-01-01
  and `2` for 2011-01-02).
* The float columns temperature / humidity / windspeed are modelled as `Rat`;
  they are only averaged and tested for emptiness here.
* Rental counts (`total`) are `Nat`.
* A pandas column holding NaN (the result of `.map` on a key absent from
  `weather_map`) is modelled as `Option String` with `none` for NaN;
  `Series.isin` is false on NaN, which the model mirrors.
* `DataFrame.sort_values(ascending=False)` follows pandas' `nargsort`
  implementation: the rows are argsorted ascending and the indexer is then
  reversed, so the model sorts with a stable ascending comparison sort
  (`sortByLe`, an insertion sort) and reverses the result.  Consequently
  groups with equal summed totals come out in reverse of their pre-sort
  order.  numpy's default sort falls back to a stable insertion sort at the
  at-most-four-element group tables this script ever sorts, so the stable
  ascending argsort is the code's actual behaviour there.
* `sort_values("date")` at load time is modelled by the same stable
  ascending sort; no claim about it depends on the order of ties.
* `groupby(k)` (default `sort=True`, `dropna=True`) produces one row per
  distinct key, keys in ascending order, rows whose key is NaN dropped.
* `Series.mean()` of an empty selection is NaN, modelled as `none`.
* `DataFrame.iloc[0]` raises `IndexError` on an empty frame; it is modelled
  as `List.head?`, with `none` marking the faulting evaluation.
-/

/-- One row of `main-hour.csv` (columns used by the script). -/
structure HourRow where
  date : Nat
  hour : Nat
  season : Nat
  weather : Nat
  temperature : Rat
  humidity : Rat
  windspeed : Rat
  total : Nat
deriving DecidableEq, Repr

/-- One row of `main-day.csv` (columns used by the script). -/
structure DayRow where
  date : Nat
  season : Nat
  weather : Nat
  total : Nat
deriving DecidableEq, Repr

/-- An hourly row after the `weather_desc` column assignment (line 62). -/
structure HourRowW where
  base : HourRow
  weather_desc : Option String
deriving DecidableEq, Repr

/-- A daily row after the `weather_desc` column assignment (line 66). -/
structure DayRowW where
  base : DayRow
  weather_desc : Option String
deriving DecidableEq, Repr

/-- Line 52: `weather_map = {1: "Clear", 2: "Mist/Cloudy", 3: "Light Snow/Rain",
4: "Heavy Rain/Ice"}`; `Series.map` yields NaN (`none`) off the domain. -/
def weather_map (code : Nat) : Option String :=
  if code = 1 then some "Clear"
  else if code = 2 then some "Mist/Cloudy"
  else if code = 3 then some "Light Snow/Rain"
  else if code = 4 then some "Heavy Rain/Ice"
  else none

/-- Insert `x` into `l` directly before the first element `y` with
`le x y = true` (stable insertion). -/
def insertBy (le : α → α → Bool) (x : α) : List α → List α
  | [] => [x]
  | y :: ys => if le x y then x :: y :: ys else y :: insertBy le x ys

/-- Stable comparison sort (insertion sort); models `sort_values`. -/
def sortByLe (le : α → α → Bool) : List α → List α
  | [] => []
  | x :: xs => insertBy le x (sortByLe le xs)

/-- Ascending order on numeric group keys (`groupby` key ordering). -/
def natLe (a b : Nat) : Bool := decide (a ≤ b)

/-- Lexicographic code-point order on char lists. -/
def charListLe : List Char → List Char → Bool
  | [], _ => true
  | _ :: _, [] => false
  | a :: as, b :: bs =>
    if a.val < b.val then true
    else if b.val < a.val then false
    else charListLe as bs

/-- Lexicographic code-point order on strings (`groupby` over an
object/string column sorts keys with this order). -/
def strLe (a b : String) : Bool := charListLe a.data b.data

/-- Ascending order by the summed total (second component): the comparison
of the argsort underlying `sort_values("total", ascending=False)`. -/
def byTotalAsc (a b : κ × Nat) : Bool := decide (a.2 ≤ b.2)

/-- Sum of `tot` over the rows of `rows` whose key is `k`. -/
def fiberSum [DecidableEq κ] (key : ρ → Option κ) (tot : ρ → Nat)
    (rows : List ρ) (k : κ) : Nat :=
  ((rows.filter fun r => decide (key r = some k)).map tot).sum

/-- Model of `rows.groupby(key).tot.sum().reset_index()`: one row per distinct
non-null key, keys ascending by `le`, each paired with its summed total.
Rows whose key is `none` (NaN) are dropped, as `groupby` does. -/
def groupedTotals (le : κ → κ → Bool) [DecidableEq κ] (key : ρ → Option κ)
    (tot : ρ → Nat) (rows : List ρ) : List (κ × Nat) :=
  (sortByLe le (rows.filterMap key).dedup).map fun k => (k, fiberSum key tot rows k)

/-- Model of `rows.groupby(key).tot.sum().reset_index().sort_values("total",
ascending=False)`: pandas argsorts ascending by total (stably, at these
group-table sizes) and reverses the indexer. -/
def summarize (le : κ → κ → Bool) [DecidableEq κ] (key : ρ → Option κ)
    (tot : ρ → Nat) (rows : List ρ) : List (κ × Nat) :=
  (sortByLe byTotalAsc (groupedTotals le key tot rows)).reverse

/-- Lines 83-89: `season_summary` over the filtered daily frame. -/
def season_summary (rows : List DayRowW) : List (Nat × Nat) :=
  summarize natLe (fun r => some r.base.season) (fun r => r.base.total) rows

/-- Lines 119-125: `weather_summary` over the filtered hourly frame. -/
def weather_summary (rows : List HourRowW) : List (String × Nat) :=
  summarize strLe (fun r => r.weather_desc) (fun r => r.base.total) rows

/-- Lines 61/65, date restriction: `df[(df.date >= start) & (df.date <= end)]`. -/
def dateFilter (dateOf : ρ → Nat) (s e : Nat) (rows : List ρ) : List ρ :=
  rows.filter fun r => decide (s ≤ dateOf r) && decide (dateOf r ≤ e)

/-- Line 62: `df_hour_filtered['weather_desc'] = df_hour_filtered.weather.map(weather_map)`. -/
def addWeatherDescHour (rows : List HourRow) : List HourRowW :=
  rows.map fun r => ⟨r, weather_map r.weather⟩

/-- Line 66, same column assignment on the daily frame. -/
def addWeatherDescDay (rows : List DayRow) : List DayRowW :=
  rows.map fun r => ⟨r, weather_map r.weather⟩

/-- Membership test of line 63/67: `season.isin(season_options) &
weather_desc.isin(weather_options)`; `isin` is false on NaN. -/
def keepRow (season : Nat) (desc : Option String)
    (seasons : List Nat) (weathers : List String) : Bool :=
  decide (season ∈ seasons) &&
    (match desc with
     | some w => decide (w ∈ weathers)
     | none => false)

/-- Lines 61-63: the fully filtered hourly frame. -/
def df_hour_filtered (df_hour : List HourRow) (s e : Nat)
    (seasons : List Nat) (weathers : List String) : List HourRowW :=
  (addWeatherDescHour (dateFilter HourRow.date s e df_hour)).filter
    fun r => keepRow r.base.season r.weather_desc seasons weathers

/-- Lines 65-67: the fully filtered daily frame. -/
def df_day_filtered (df_day : List DayRow) (s e : Nat)
    (seasons : List Nat) (weathers : List String) : List DayRowW :=
  (addWeatherDescDay (dateFilter DayRow.date s e df_day)).filter
    fun r => keepRow r.base.season r.weather_desc seasons weathers

/-- `Series.mean()`: NaN (here `none`) on an empty selection. -/
def mean (xs : List Rat) : Option Rat :=
  if xs = [] then none else some (xs.sum / (xs.length : Rat))

/-- Line 75 KPI: mean temperature of the filtered hourly frame. -/
def avgTemperature (rows : List HourRowW) : Option Rat :=
  mean (rows.map fun r => r.base.temperature)

/-- Line 76 KPI: mean humidity of the filtered hourly frame. -/
def avgHumidity (rows : List HourRowW) : Option Rat :=
  mean (rows.map fun r => r.base.humidity)

/-- Line 77 KPI: mean windspeed of the filtered hourly frame. -/
def avgWindspeed (rows : List HourRowW) : Option Rat :=
  mean (rows.map fun r => r.base.windspeed)

/-- Line 98: `season_summary.iloc[0]`.  `iloc[0]` raises `IndexError` on an
empty frame; `none` marks that faulting evaluation. -/
def topSeasonRow (rows : List DayRowW) : Option (Nat × Nat) :=
  (season_summary rows).head?

/-- Ascending date order on hourly rows (`sort_values("date")`). -/
def hourDateLe (a b : HourRow) : Bool := decide (a.date ≤ b.date)

/-- Lines 29-32, `load_data`: reads both CSVs and sorts the hourly frame by
date in place; the daily frame is returned in file order. -/
def load_data (dayRaw : List DayRow) (hourRaw : List HourRow) :
    List DayRow × List HourRow :=
  (dayRaw, sortByLe hourDateLe hourRaw)

/-! Helper lemmas about the stable sort. -/

theorem perm_insertBy (le : α → α → Bool) (x : α) (l : List α) :
    (insertBy le x l).Perm (x :: l) := by
  induction l with
  | nil => rfl
  | cons y ys ih =>
    simp only [insertBy]
    split
    · rfl
    · exact (ih.cons y).trans (List.Perm.swap x y ys)

theorem perm_sortByLe (le : α → α → Bool) (l : List α) : (sortByLe le l).Perm l := by
  induction l with
  | nil => rfl
  | cons x xs ih => exact (perm_insertBy le x (sortByLe le xs)).trans (ih.cons x)

theorem pairwise_insertBy (le : α → α → Bool)
    (htot : ∀ a b, le a b = true ∨ le b a = true)
    (htrans : ∀ a b c, le a b = true → le b c = true → le a c = true)
    (x : α) (l : List α) (hl : l.Pairwise fun a b => le a b = true) :
    (insertBy le x l).Pairwise fun a b => le a b = true := by
  induction l with
  | nil => simp [insertBy]
  | cons y ys ih =>
    rcases List.pairwise_cons.1 hl with ⟨hy, hys⟩
    simp only [insertBy]
    split
    next h =>
      refine List.pairwise_cons.2 ⟨?_, hl⟩
      intro b hb
      rcases List.mem_cons.1 hb with rfl | hb2
      · exact h
      · exact htrans x y b h (hy b hb2)
    next h =>
      have hyx : le y x = true := (htot x y).resolve_left h
      refine List.pairwise_cons.2 ⟨?_, ih hys⟩
      intro b hb
      have hb2 : b = x ∨ b ∈ ys := by
        simpa using (perm_insertBy le x ys).mem_iff.1 hb
      rcases hb2 with rfl | hb3
      · exact hyx
      · exact hy b hb3

theorem pairwise_sortByLe (le : α → α → Bool)
    (htot : ∀ a b, le a b = true ∨ le b a = true)
    (htrans : ∀ a b c, le a b = true → le b c = true → le a c = true)
    (l : List α) : (sortByLe le l).Pairwise fun a b => le a b = true := by
  induction l with
  | nil => simp [sortByLe]
  | cons x xs ih => exact pairwise_insertBy le htot htrans x _ ih

theorem filter_insertBy_asc (t : Nat) (x : κ × Nat) (l : List (κ × Nat)) :
    (insertBy byTotalAsc x l).filter (fun a => decide (a.2 = t)) =
      if x.2 = t then x :: l.filter (fun a => decide (a.2 = t))
      else l.filter (fun a => decide (a.2 = t)) := by
  induction l with
  | nil => by_cases hx : x.2 = t <;> simp [insertBy, hx]
  | cons y ys ih =>
    simp only [insertBy]
    split
    next h =>
      by_cases hx : x.2 = t <;> simp [List.filter_cons, hx]
    next h =>
      have hlt : y.2 < x.2 := by
        simp only [byTotalAsc, decide_eq_true_eq] at h
        omega
      by_cases hx : x.2 = t
      · have hyt : ¬ (y.2 = t) := by omega
        simp [List.filter_cons, hx, hyt, ih]
      · simp [List.filter_cons, hx, ih]

theorem filter_sortByLe_asc (t : Nat) (l : List (κ × Nat)) :
    (sortByLe byTotalAsc l).filter (fun a => decide (a.2 = t)) =
      l.filter (fun a => decide (a.2 = t)) := by
  induction l with
  | nil => rfl
  | cons x xs ih =>
    simp only [sortByLe]
    rw [filter_insertBy_asc]
    by_cases hx : x.2 = t <;> simp [List.filter_cons, hx, ih]

/-! Helper lemmas about grouped sums. -/

theorem sum_map_filter_partition (p : α → Bool) (f : α → Nat) (l : List α) :
    ((l.filter p).map f).sum + ((l.filter fun a => ! p a).map f).sum
      = (l.map f).sum := by
  induction l with
  | nil => rfl
  | cons x xs ih =>
    cases hpx : p x <;> simp [List.filter_cons, hpx] <;> omega

theorem sum_fiberSums [DecidableEq κ] (key : ρ → Option κ) (tot : ρ → Nat) :
    ∀ (keys : List κ) (rows : List ρ), keys.Nodup →
      (∀ r ∈ rows, ∃ k ∈ keys, key r = some k) →
      (keys.map (fiberSum key tot rows)).sum = (rows.map tot).sum := by
  intro keys
  induction keys with
  | nil =>
    intro rows _ hcov
    cases rows with
    | nil => rfl
    | cons r rs =>
      rcases hcov r (by simp) with ⟨k, hk, -⟩
      simp at hk
  | cons k ks ih =>
    intro rows hnd hcov
    rcases List.nodup_cons.1 hnd with ⟨hkn, hnd2⟩
    have hfib : ∀ k2 ∈ ks, fiberSum key tot rows k2 =
        fiberSum key tot (rows.filter fun r => ! decide (key r = some k)) k2 := by
      intro k2 hk2
      unfold fiberSum
      rw [List.filter_filter]
      have hfilt : rows.filter (fun a => decide (key a = some k2) && ! decide (key a = some k))
          = rows.filter fun r => decide (key r = some k2) := by
        apply List.filter_congr
        intro r hr
        by_cases h : key r = some k2
        · have hkk : ¬ (k2 = k) := fun hkk => hkn (hkk ▸ hk2)
          simp [h, hkk]
        · simp [h]
      rw [hfilt]
    have hcov2 : ∀ r ∈ (rows.filter fun r => ! decide (key r = some k)),
        ∃ k2 ∈ ks, key r = some k2 := by
      intro r hr
      rcases List.mem_filter.1 hr with ⟨hr2, hne⟩
      rcases hcov r hr2 with ⟨k2, hk2, hkey⟩
      rcases List.mem_cons.1 hk2 with rfl | hk3
      · exfalso
        simp [hkey] at hne
      · exact ⟨k2, hk3, hkey⟩
    have hmap : ks.map (fiberSum key tot rows) =
        ks.map (fiberSum key tot (rows.filter fun r => ! decide (key r = some k))) :=
      List.map_congr_left hfib
    calc ((k :: ks).map (fiberSum key tot rows)).sum
        = fiberSum key tot rows k + (ks.map (fiberSum key tot rows)).sum := by
          simp
      _ = fiberSum key tot rows k +
            ((rows.filter fun r => ! decide (key r = some k)).map tot).sum := by
          rw [hmap, ih _ hnd2 hcov2]
      _ = (rows.map tot).sum := by
          exact sum_map_filter_partition (fun r => decide (key r = some k)) tot rows

theorem byTotalAsc_total (a b : κ × Nat) :
    byTotalAsc a b = true ∨ byTotalAsc b a = true := by
  unfold byTotalAsc
  rcases Nat.le_total a.2 b.2 with h | h <;> simp [h]

theorem byTotalAsc_trans (a b c : κ × Nat) (hab : byTotalAsc a b = true)
    (hbc : byTotalAsc b c = true) : byTotalAsc a c = true := by
  unfold byTotalAsc at hab hbc ⊢
  exact decide_eq_true (Nat.le_trans (of_decide_eq_true hab) (of_decide_eq_true hbc))

theorem perm_summarize (le : κ → κ → Bool) [DecidableEq κ] (key : ρ → Option κ)
    (tot : ρ → Nat) (rows : List ρ) :
    (summarize le key tot rows).Perm (groupedTotals le key tot rows) := by
  unfold summarize
  exact (List.reverse_perm _).trans (perm_sortByLe byTotalAsc _)

theorem pairwise_summarize (le : κ → κ → Bool) [DecidableEq κ] (key : ρ → Option κ)
    (tot : ρ → Nat) (rows : List ρ) :
    (summarize le key tot rows).Pairwise fun a b => b.2 ≤ a.2 := by
  unfold summarize
  rw [List.pairwise_reverse]
  have h := pairwise_sortByLe byTotalAsc byTotalAsc_total byTotalAsc_trans
    (groupedTotals le key tot rows)
  exact h.imp fun hab => by simpa [byTotalAsc] using hab

theorem sum_groupedTotals (le : κ → κ → Bool) [DecidableEq κ]
    (key : ρ → Option κ) (tot : ρ → Nat) (rows : List ρ)
    (hsome : ∀ r ∈ rows, (key r).isSome) :
    ((groupedTotals le key tot rows).map (fun p => p.2)).sum = (rows.map tot).sum := by
  unfold groupedTotals
  rw [List.map_map]
  have hmaps : ((fun p : κ × Nat => p.2) ∘ fun k => (k, fiberSum key tot rows k))
      = fiberSum key tot rows := rfl
  rw [hmaps]
  apply sum_fiberSums
  · exact (perm_sortByLe le _).nodup_iff.mpr (List.nodup_dedup _)
  · intro r hr
    rcases Option.isSome_iff_exists.1 (hsome r hr) with ⟨k, hk⟩
    refine ⟨k, ?_, hk⟩
    exact (perm_sortByLe le _).mem_iff.mpr
      (List.mem_dedup.2 (List.mem_filterMap.2 ⟨r, hr, hk⟩))

theorem sum_summarize (le : κ → κ → Bool) [DecidableEq κ]
    (key : ρ → Option κ) (tot : ρ → Nat) (rows : List ρ)
    (hsome : ∀ r ∈ rows, (key r).isSome) :
    ((summarize le key tot rows).map (fun p => p.2)).sum = (rows.map tot).sum := by
  have hp : (List.map (fun p : κ × Nat => p.2) (summarize le key tot rows)).Perm
      (List.map (fun p : κ × Nat => p.2) (groupedTotals le key tot rows)) :=
    (perm_summarize le key tot rows).map fun p : κ × Nat => p.2
  rw [hp.sum_eq]
  exact sum_groupedTotals le key tot rows hsome

/-! Helper lemmas about the row filters. -/

theorem keepRow_spec {season : Nat} {desc : Option String}
    {seasons : List Nat} {weathers : List String}
    (h : keepRow season desc seasons weathers = true) :
    season ∈ seasons ∧ ∃ w ∈ weathers, desc = some w := by
  unfold keepRow at h
  rw [Bool.and_eq_true] at h
  rcases h with ⟨h1, h2⟩
  refine ⟨of_decide_eq_true h1, ?_⟩
  cases hd : desc with
  | none => rw [hd] at h2; simp at h2
  | some w =>
    rw [hd] at h2
    exact ⟨w, of_decide_eq_true h2, rfl⟩

theorem mem_hour_filtered {dfh : List HourRow} {s e : Nat}
    {seasons : List Nat} {weathers : List String} {r : HourRowW}
    (hr : r ∈ df_hour_filtered dfh s e seasons weathers) :
    r.weather_desc = weather_map r.base.weather ∧
      keepRow r.base.season r.weather_desc seasons weathers = true := by
  unfold df_hour_filtered at hr
  rcases List.mem_filter.1 hr with ⟨hmem, hkeep⟩
  rcases List.mem_map.1 hmem with ⟨orig, -, rfl⟩
  exact ⟨rfl, hkeep⟩

theorem mem_day_filtered {dfd : List DayRow} {s e : Nat}
    {seasons : List Nat} {weathers : List String} {r : DayRowW}
    (hr : r ∈ df_day_filtered dfd s e seasons weathers) :
    r.weather_desc = weather_map r.base.weather ∧
      keepRow r.base.season r.weather_desc seasons weathers = true := by
  unfold df_day_filtered at hr
  rcases List.mem_filter.1 hr with ⟨hmem, hkeep⟩
  rcases List.mem_map.1 hmem with ⟨orig, -, rfl⟩
  exact ⟨rfl, hkeep⟩

theorem dateFilter_spec (dateOf : ρ → Nat) (s e : Nat) (rows : List ρ) :
    (dateFilter dateOf s e rows).Sublist rows ∧
    (∀ r ∈ dateFilter dateOf s e rows, s ≤ dateOf r ∧ dateOf r ≤ e) ∧
    (∀ r ∈ rows, s ≤ dateOf r → dateOf r ≤ e → r ∈ dateFilter dateOf s e rows) := by
  refine ⟨List.filter_sublist _, ?_, ?_⟩
  · intro r hr
    have h := (List.mem_filter.1 hr).2
    rw [Bool.and_eq_true] at h
    exact ⟨of_decide_eq_true h.1, of_decide_eq_true h.2⟩
  · intro r hr h1 h2
    exact List.mem_filter.2 ⟨hr, by simp [h1, h2]⟩

/-! The script's variable environment, for the frame property. -/

/-- The dataframe variables of the script after `load_data` (line 34):
the two loaded frames and the two derived frames built at lines 61-67. -/
structure Env where
  df_day : List DayRow
  df_hour : List HourRow
  df_day_filtered : List DayRowW
  df_hour_filtered : List HourRowW

/-- Lines 60-67 as sequential updates of the variable environment: line 61
binds the date-restricted copy of `df_hour`, line 62 assigns the
`weather_desc` column in place on that copy, line 63 rebinds the frame to
its season/weather restriction; lines 65-67 repeat this for `df_day`. -/
def runFilters (s e : Nat) (seasons : List Nat) (weathers : List String)
    (env : Env) : Env :=
  let env1 := { env with
    df_hour_filtered := (dateFilter HourRow.date s e env.df_hour).map fun r => ⟨r, none⟩ }
  let env2 := { env1 with
    df_hour_filtered := env1.df_hour_filtered.map fun r : HourRowW => ⟨r.base, weather_map r.base.weather⟩ }
  let env3 := { env2 with
    df_hour_filtered := env2.df_hour_filtered.filter
      fun r => keepRow r.base.season r.weather_desc seasons weathers }
  let env4 := { env3 with
    df_day_filtered := (dateFilter DayRow.date s e env3.df_day).map fun r => ⟨r, none⟩ }
  let env5 := { env4 with
    df_day_filtered := env4.df_day_filtered.map fun r : DayRowW => ⟨r.base, weather_map r.base.weather⟩ }
  { env5 with
    df_day_filtered := env5.df_day_filtered.filter
      fun r => keepRow r.base.season r.weather_desc seasons weathers }

/-! Concrete data used by the scenario claims and witnesses. -/

/-- Daily rows of the spec's scenario: 2011-01-01 (date code 1, season 1,
weather 1, total 10) and 2011-01-02 (date code 2, season 2, weather 2,
total 20). -/
def scenarioDay : List DayRow := [⟨1, 1, 1, 10⟩, ⟨2, 2, 2, 20⟩]

/-- Hourly rows of the spec's scenario, one per day, with arbitrary
temperature / humidity / windspeed readings. -/
def scenarioHour : List HourRow :=
  [⟨1, 0, 1, 1, 10, 50, 5, 10⟩, ⟨2, 0, 2, 2, 12, 60, 6, 20⟩]

/-- All four weather labels (the default multiselect state). -/
def allLabels : List String :=
  ["Clear", "Mist/Cloudy", "Light Snow/Rain", "Heavy Rain/Ice"]

/-- Two daily rows in distinct seasons with equal totals. -/
def tieDay : List DayRow := [⟨1, 1, 1, 10⟩, ⟨2, 2, 1, 10⟩]

/-! Order facts about the comparators. -/

theorem hourDateLe_total (a b : HourRow) :
    hourDateLe a b = true ∨ hourDateLe b a = true := by
  unfold hourDateLe
  rcases Nat.le_total a.date b.date with h | h <;> simp [h]

theorem hourDateLe_trans (a b c : HourRow) (hab : hourDateLe a b = true)
    (hbc : hourDateLe b c = true) : hourDateLe a c = true := by
  unfold hourDateLe at hab hbc ⊢
  exact decide_eq_true (Nat.le_trans (of_decide_eq_true hab) (of_decide_eq_true hbc))

theorem filterMap_some_map (f : ρ → κ) (l : List ρ) :
    (l.filterMap fun r => some (f r)) = l.map f := by
  induction l with
  | nil => rfl
  | cons x xs ih => simp [List.filterMap_cons, ih]

/-! Claim theorems. -/

/-- C1: an empty filtered set is representable and every aggregate is
defined on it: both summaries are empty, the KPI means are NaN (`none`) and
the `season_summary.iloc[0]` access of line 98 has no row to return
(`topSeasonRow` is `none`, the evaluation that raises `IndexError` in the
script).  Evaluated at the scenario data with the season multiselect
emptied. -/
theorem claim_C1_empty_filter :
    df_day_filtered scenarioDay 1 2 [] allLabels = [] ∧
    season_summary (df_day_filtered scenarioDay 1 2 [] allLabels) = [] ∧
    topSeasonRow (df_day_filtered scenarioDay 1 2 [] allLabels) = none ∧
    df_hour_filtered scenarioHour 1 2 [] allLabels = [] ∧
    weather_summary (df_hour_filtered scenarioHour 1 2 [] allLabels) = [] ∧
    avgTemperature (df_hour_filtered scenarioHour 1 2 [] allLabels) = none ∧
    avgHumidity (df_hour_filtered scenarioHour 1 2 [] allLabels) = none ∧
    avgWindspeed (df_hour_filtered scenarioHour 1 2 [] allLabels) = none := by
  refine ⟨by decide, by decide, by decide, by decide, by decide, by decide, by decide, by decide⟩

/-- C2 counterexample: with two seasons whose summed totals are equal, the
season summary is not strictly descending by summed total, and the two
equal-total groups appear in reverse of the grouped table's original
ascending-key order (pandas reverses the ascending sort), so the tie-order
clause fails as well. -/
theorem claim_C2_counterexample :
    groupedTotals natLe (fun r => some r.base.season) (fun r => r.base.total)
        (df_day_filtered tieDay 1 2 [1, 2] allLabels) = [(1, 10), (2, 10)] ∧
    season_summary (df_day_filtered tieDay 1 2 [1, 2] allLabels) = [(2, 10), (1, 10)] ∧
    ¬ (season_summary (df_day_filtered tieDay 1 2 [1, 2] allLabels)).Pairwise
        fun a b => b.2 < a.2 := by
  refine ⟨by decide, by decide, by decide⟩

/-- C2 (amended): each summary table is sorted in non-increasing order of
summed total, and restricting it to any fixed total value reproduces the
grouped table's rows with that total in reverse of their original
(ascending key) order: pandas reverses the stably ascending-argsorted
table for a descending sort, so equal-total groups come out in reversed
key order, not the original one. -/
theorem claim_C2_sort_order (rowsD : List DayRowW) (rowsH : List HourRowW) :
    ((season_summary rowsD).Pairwise fun a b => b.2 ≤ a.2) ∧
    (∀ t, (season_summary rowsD).filter (fun p => decide (p.2 = t)) =
      ((groupedTotals natLe (fun r => some r.base.season) (fun r => r.base.total) rowsD).filter
        fun p => decide (p.2 = t)).reverse) ∧
    ((weather_summary rowsH).Pairwise fun a b => b.2 ≤ a.2) ∧
    (∀ t, (weather_summary rowsH).filter (fun p => decide (p.2 = t)) =
      ((groupedTotals strLe (fun r => r.weather_desc) (fun r => r.base.total) rowsH).filter
        fun p => decide (p.2 = t)).reverse) := by
  refine ⟨pairwise_summarize natLe _ _ _, ?_, pairwise_summarize strLe _ _ _, ?_⟩
  · intro t
    show ((sortByLe byTotalAsc _).reverse.filter _) = _
    rw [List.filter_reverse, filter_sortByLe_asc]
  · intro t
    show ((sortByLe byTotalAsc _).reverse.filter _) = _
    rw [List.filter_reverse, filter_sortByLe_asc]

/-- C3: the date-filter step keeps a subset (sublist) of the input, every
kept record's date lies in the inclusive range, and every input record in
range is kept; both for the hourly and the daily frame. -/
theorem claim_C3_date_range (dfh : List HourRow) (dfd : List DayRow) (s e : Nat) :
    (dateFilter HourRow.date s e dfh).Sublist dfh ∧
    (∀ r ∈ dateFilter HourRow.date s e dfh, s ≤ r.date ∧ r.date ≤ e) ∧
    (∀ r ∈ dfh, s ≤ r.date → r.date ≤ e → r ∈ dateFilter HourRow.date s e dfh) ∧
    (dateFilter DayRow.date s e dfd).Sublist dfd ∧
    (∀ r ∈ dateFilter DayRow.date s e dfd, s ≤ r.date ∧ r.date ≤ e) ∧
    (∀ r ∈ dfd, s ≤ r.date → r.date ≤ e → r ∈ dateFilter DayRow.date s e dfd) := by
  rcases dateFilter_spec HourRow.date s e dfh with ⟨h1, h2, h3⟩
  rcases dateFilter_spec DayRow.date s e dfd with ⟨h4, h5, h6⟩
  exact ⟨h1, h2, h3, h4, h5, h6⟩

/-- C3 witness: the scenario record dated 1 is kept by the range [1, 1]. -/
theorem claim_C3_date_range_witness :
    ((⟨1, 0, 1, 1, 10, 50, 5, 10⟩ : HourRow) ∈ scenarioHour) ∧
    ((⟨1, 0, 1, 1, 10, 50, 5, 10⟩ : HourRow) ∈ dateFilter HourRow.date 1 1 scenarioHour) :=
  ⟨by decide, (claim_C3_date_range scenarioHour scenarioDay 1 1).2.2.1
    ⟨1, 0, 1, 1, 10, 50, 5, 10⟩ (by decide) (by decide) (by decide)⟩

/-- C4: every record of the fully filtered hourly and daily frames has its
season in the accepted season set and its derived weather label defined and
in the accepted label set; hence no excluded record appears. -/
theorem claim_C4_categorical_filter (dfh : List HourRow) (dfd : List DayRow)
    (s e : Nat) (ss : List Nat) (ws : List String) :
    (∀ r ∈ df_hour_filtered dfh s e ss ws,
      r.base.season ∈ ss ∧ ∃ w ∈ ws, r.weather_desc = some w) ∧
    (∀ r ∈ df_day_filtered dfd s e ss ws,
      r.base.season ∈ ss ∧ ∃ w ∈ ws, r.weather_desc = some w) := by
  constructor
  · intro r hr
    exact keepRow_spec (mem_hour_filtered hr).2
  · intro r hr
    exact keepRow_spec (mem_day_filtered hr).2

/-- C4 witness: the first scenario hourly record survives the filter and
satisfies both categorical conditions. -/
theorem claim_C4_categorical_filter_witness :
    ((⟨⟨1, 0, 1, 1, 10, 50, 5, 10⟩, some "Clear"⟩ : HourRowW)
        ∈ df_hour_filtered scenarioHour 1 2 [1, 2] allLabels) ∧
    ((⟨⟨1, 0, 1, 1, 10, 50, 5, 10⟩, some "Clear"⟩ : HourRowW).base.season ∈ [1, 2] ∧
      ∃ w ∈ allLabels,
        (⟨⟨1, 0, 1, 1, 10, 50, 5, 10⟩, some "Clear"⟩ : HourRowW).weather_desc = some w) :=
  ⟨by decide, (claim_C4_categorical_filter scenarioHour scenarioDay 1 2 [1, 2] allLabels).1
    ⟨⟨1, 0, 1, 1, 10, 50, 5, 10⟩, some "Clear"⟩ (by decide)⟩

/-- C5: the per-group sums of each summary table add up to the sum of
`total` over the filtered record set the aggregation reads. -/
theorem claim_C5_totals (dfh : List HourRow) (dfd : List DayRow) (s e : Nat)
    (ss : List Nat) (ws : List String) :
    ((season_summary (df_day_filtered dfd s e ss ws)).map (fun p => p.2)).sum =
      ((df_day_filtered dfd s e ss ws).map fun r => r.base.total).sum ∧
    ((weather_summary (df_hour_filtered dfh s e ss ws)).map (fun p => p.2)).sum =
      ((df_hour_filtered dfh s e ss ws).map fun r => r.base.total).sum := by
  constructor
  · exact sum_summarize natLe _ _ _ fun r _ => rfl
  · apply sum_summarize strLe _ _ _
    intro r hr
    rcases keepRow_spec (mem_hour_filtered hr).2 with ⟨-, w, -, hdesc⟩
    simp [hdesc]

/-- C6: on a non-empty filtered daily set, line 98 reports the first row of
the descending-sorted season summary; that row is a real season group and
its summed total is maximal among all season groups (on ties the first row
of the sorted order is by definition the one reported). -/
theorem claim_C6_top_season (dfd : List DayRow) (s e : Nat) (ss : List Nat)
    (ws : List String) (hne : df_day_filtered dfd s e ss ws ≠ []) :
    ∃ p : Nat × Nat,
      topSeasonRow (df_day_filtered dfd s e ss ws) = some p ∧
      (season_summary (df_day_filtered dfd s e ss ws)).head? = some p ∧
      p ∈ season_summary (df_day_filtered dfd s e ss ws) ∧
      ∀ q ∈ season_summary (df_day_filtered dfd s e ss ws), q.2 ≤ p.2 := by
  set rows := df_day_filtered dfd s e ss ws with hrows
  have hsne : season_summary rows ≠ [] := by
    intro hcon
    apply hne
    have hlen0 : (season_summary rows).length = 0 := by rw [hcon]; rfl
    unfold season_summary at hlen0
    rw [(perm_summarize natLe _ _ _).length_eq] at hlen0
    unfold groupedTotals at hlen0
    rw [List.length_map, (perm_sortByLe natLe _).length_eq] at hlen0
    have hded := (List.dedup_eq_nil _).1 (List.length_eq_zero.1 hlen0)
    rw [filterMap_some_map] at hded
    exact List.map_eq_nil_iff.1 hded
  obtain ⟨p, rest, hps⟩ : ∃ p rest, season_summary rows = p :: rest := by
    cases h : season_summary rows with
    | nil => exact absurd h hsne
    | cons p rest => exact ⟨p, rest, rfl⟩
  have hpw : (season_summary rows).Pairwise fun a b => b.2 ≤ a.2 :=
    pairwise_summarize natLe _ _ _
  refine ⟨p, ?_, ?_, ?_, ?_⟩
  · unfold topSeasonRow
    rw [hps]
    rfl
  · rw [hps]
    rfl
  · rw [hps]
    exact List.mem_cons_self p rest
  · intro q hq
    rw [hps] at hq hpw
    rcases List.mem_cons.1 hq with rfl | hq2
    · exact Nat.le_refl _
    · exact (List.pairwise_cons.1 hpw).1 q hq2

/-- C6 witness: on the scenario data with all filters open the top row is
season 2 with 20 rentals. -/
theorem claim_C6_top_season_witness :
    (df_day_filtered scenarioDay 1 2 [1, 2] allLabels ≠ []) ∧
    ∃ p : Nat × Nat,
      topSeasonRow (df_day_filtered scenarioDay 1 2 [1, 2] allLabels) = some p ∧
      (season_summary (df_day_filtered scenarioDay 1 2 [1, 2] allLabels)).head? = some p ∧
      p ∈ season_summary (df_day_filtered scenarioDay 1 2 [1, 2] allLabels) ∧
      ∀ q ∈ season_summary (df_day_filtered scenarioDay 1 2 [1, 2] allLabels), q.2 ≤ p.2 :=
  ⟨by decide, claim_C6_top_season scenarioDay 1 2 [1, 2] allLabels (by decide)⟩

/-- C7: the spec's concrete scenario, evaluated end to end. -/
theorem claim_C7_scenario :
    season_summary (df_day_filtered scenarioDay 1 2 [1, 2] ["Clear", "Mist/Cloudy"]) =
      [(2, 20), (1, 10)] ∧
    weather_summary (df_hour_filtered scenarioHour 1 2 [1, 2] ["Clear", "Mist/Cloudy"]) =
      [("Mist/Cloudy", 20), ("Clear", 10)] ∧
    topSeasonRow (df_day_filtered scenarioDay 1 2 [1, 2] ["Clear", "Mist/Cloudy"]) =
      some (2, 20) := by
  refine ⟨by decide, by decide, by decide⟩

/-- C8: a weather code outside the mapping domain {1, 2, 3, 4} gets an
undefined (`none`) label, and no record carrying such a code survives the
categorical filter, whatever the accepted sets are; the lookup itself is
total, so nothing raises. -/
theorem claim_C8_unmapped_weather (w : Nat) (hw : w ∉ ([1, 2, 3, 4] : List Nat)) :
    weather_map w = none ∧
    (∀ (dfh : List HourRow) (s e : Nat) (ss : List Nat) (ws : List String),
      ∀ r ∈ df_hour_filtered dfh s e ss ws, r.base.weather ≠ w) ∧
    (∀ (dfd : List DayRow) (s e : Nat) (ss : List Nat) (ws : List String),
      ∀ r ∈ df_day_filtered dfd s e ss ws, r.base.weather ≠ w) := by
  have hmap : weather_map w = none := by
    simp only [List.mem_cons, List.not_mem_nil, or_false, not_or] at hw
    rcases hw with ⟨h1, h2, h3, h4⟩
    simp [weather_map, h1, h2, h3, h4]
  refine ⟨hmap, ?_, ?_⟩
  · intro dfh s e ss ws r hr hcon
    rcases mem_hour_filtered hr with ⟨hdesc, hkeep⟩
    rcases keepRow_spec hkeep with ⟨-, w2, -, hw2⟩
    rw [hdesc, hcon, hmap] at hw2
    cases hw2
  · intro dfd s e ss ws r hr hcon
    rcases mem_day_filtered hr with ⟨hdesc, hkeep⟩
    rcases keepRow_spec hkeep with ⟨-, w2, -, hw2⟩
    rw [hdesc, hcon, hmap] at hw2
    cases hw2

/-- C8 witness: code 5 is outside the mapping domain and maps to `none`. -/
theorem claim_C8_unmapped_weather_witness :
    ((5 : Nat) ∉ ([1, 2, 3, 4] : List Nat)) ∧ weather_map 5 = none :=
  ⟨by decide, (claim_C8_unmapped_weather 5 (by decide)).1⟩

/-- C9: running lines 60-67 over the variable environment leaves the loaded
frames `df_day` and `df_hour` unchanged (all mutation happens on the
`.copy()` frames), and the derived frames it leaves behind are exactly the
pure filter pipeline applied to the loaded data. -/
theorem claim_C9_frame (s e : Nat) (ss : List Nat) (ws : List String) (env : Env) :
    (runFilters s e ss ws env).df_day = env.df_day ∧
    (runFilters s e ss ws env).df_hour = env.df_hour ∧
    (runFilters s e ss ws env).df_hour_filtered = df_hour_filtered env.df_hour s e ss ws ∧
    (runFilters s e ss ws env).df_day_filtered = df_day_filtered env.df_day s e ss ws := by
  refine ⟨rfl, rfl, ?_, ?_⟩ <;>
    · simp only [runFilters, List.map_map]
      rfl

/-- C10: `load_data` returns the daily frame in file order and the hourly
frame sorted ascending by date (as a permutation of the file order), and
every downstream filtered hourly view inherits that ascending date order. -/
theorem claim_C10_load_order (dayRaw : List DayRow) (hourRaw : List HourRow) :
    (load_data dayRaw hourRaw).1 = dayRaw ∧
    ((load_data dayRaw hourRaw).2.Pairwise fun a b => a.date ≤ b.date) ∧
    (load_data dayRaw hourRaw).2.Perm hourRaw ∧
    ∀ (s e : Nat) (ss : List Nat) (ws : List String),
      (df_hour_filtered (load_data dayRaw hourRaw).2 s e ss ws).Pairwise
        fun a b => a.base.date ≤ b.base.date := by
  have hsorted : (load_data dayRaw hourRaw).2.Pairwise fun a b => a.date ≤ b.date := by
    have h := pairwise_sortByLe hourDateLe hourDateLe_total hourDateLe_trans hourRaw
    exact h.imp fun hab => by simpa [hourDateLe] using hab
  refine ⟨rfl, hsorted, perm_sortByLe _ _, ?_⟩
  intro s e ss ws
  unfold df_hour_filtered addWeatherDescHour
  apply List.Pairwise.sublist (List.filter_sublist _)
  rw [List.pairwise_map]
  unfold dateFilter
  exact List.Pairwise.sublist (List.filter_sublist _) hsorted
